import Mathlib

/-!
Verification of the energy-storage calculator core (`EnergySystemCalculator`
in `app.py`): the PV generation model `simulate_pv_generation`, the battery
dispatch simulator `calculate_autoconsumption`, and the sizing loop
`optimize_system`.

The embedding follows the source line by line:

* A consumption profile is a list of hourly consumption values; a generation
  profile is a list of hourly generation values aligned by position.
* `simulate_pv_generation` works over `ℝ` (the diurnal curve uses `sin` and
  the degradation rate a real 25th-root power).  The pandas
  `pd.Series(values, index)` constructor raises when the value array's length
  differs from the index's length; this is modelled by returning `none` in
  that case.
* `calculate_autoconsumption` is a left-to-right fold with accumulators
  `storage_level` and `autokonsumed`; the step logic only uses ordered-field
  operations, so it is defined over any `LinearOrderedField` (instantiated at
  `ℚ` for executable checks and at `ℝ` inside the optimizer).
* `optimize_system` is a `while True` loop; it is modelled with an explicit
  fuel argument, `none` meaning that the loop did not exit within the given
  number of iterations.  A divergence proof shows `none` for *every* fuel.
* `np.random.seed(42)` mutates numpy's global RNG state; the state is made
  explicit in `simulate_pv_generation_with_rng` to reason about purity.
-/

open List

/-- Model of `np.tile (xs, n)`: `n` concatenated copies of `xs`. -/
def npTile {β : Type} (xs : List β) (n : ℕ) : List β :=
  (List.replicate n xs).flatten

/-- Model of `np.clip x 0 1`: clamp a value into `[0, 1]`. -/
noncomputable def npClip01 (x : ℝ) : ℝ := min 1 (max 0 x)

/-- The 24 diurnal curve samples of the source:
`np.clip(np.sin(np.linspace(0, np.pi, 24)), 0, 1)`, i.e. `sin` at the 24
equally spaced points `i * π / 23`, `i = 0, …, 23`, clipped into `[0, 1]`. -/
noncomputable def seasonal_curve : List ℝ :=
  (List.range 24).map (fun i : ℕ => npClip01 (Real.sin (Real.pi * (i : ℝ) / 23)))

/-- The constant `degradation_rate = 1 - 0.85 ** (1/25)` from `simulate_pv_generation`. -/
noncomputable def degradation_rate : ℝ := 1 - (0.85 : ℝ) ^ ((1 : ℝ) / 25)

/-- The factor `degradation_multiplier = (1 - degradation_rate) ** (years - 1)`
(`years ≥ 1` in every caller; subtraction is the truncated `ℕ` one). -/
noncomputable def degradation_multiplier (years : ℕ) : ℝ :=
  (1 - degradation_rate) ^ (years - 1)

/-- Model of `EnergySystemCalculator.simulate_pv_generation`, for a consumption
profile of length `L`.  The seasonal factor is the diurnal curve tiled
`L // 24` times; the final `pd.Series(values, index)` constructor raises a
`ValueError` when the value array and the index disagree in length, modelled
as `none`. -/
noncomputable def simulate_pv_generation (pv_size_kw : ℝ) (years : ℕ) (L : ℕ) :
    Option (List ℝ) :=
  let annual_generation_per_kw : ℝ := 1000
  let system_losses : ℝ := 0.15
  let base_generation := pv_size_kw * annual_generation_per_kw * (1 - system_losses)
  let hourly_generation := base_generation / 8760
  let seasonal_factor := npTile seasonal_curve (L / 24)
  if seasonal_factor.length = L then
    some (seasonal_factor.map (fun s => hourly_generation * s * degradation_multiplier years))
  else
    none

/-- One iteration of the dispatch loop body of `calculate_autoconsumption`:
given the storage level at entry and the hour's `(pv_gen, demand)`, return
`(new storage level, direct_use as accumulated into autokonsumed)`. -/
def dispatch_step {α : Type} [LinearOrderedField α]
    (adjusted_capacity storage_power_kw level pv_gen demand : α) : α × α :=
  let excess := max (pv_gen - demand) 0
  let direct_use := min pv_gen demand
  if 0 < excess then
    let charge := min (adjusted_capacity - level) (min storage_power_kw excess)
    (level + charge, direct_use)
  else
    let needed := demand - direct_use
    let discharge := min level (min storage_power_kw needed)
    (level - discharge, direct_use + discharge)

/-- The dispatch loop: fold `dispatch_step` over the `(pv_gen, demand)`
pairs from storage level `level`, returning the final storage level, the
total `autokonsumed`, and the recorded `storage_levels` series. -/
def dispatch_run {α : Type} [LinearOrderedField α]
    (adjusted_capacity storage_power_kw : α) :
    List (α × α) → α → α × α × List α
  | [], level => (level, 0, [])
  | (pv_gen, demand) :: rest, level =>
    let s := dispatch_step adjusted_capacity storage_power_kw level pv_gen demand
    let r := dispatch_run adjusted_capacity storage_power_kw rest s.1
    (r.1, s.2 + r.2.1, s.1 :: r.2.2)

/-- The bound `adjusted_capacity = storage_capacity_kwh * (1 - battery_degradation)`
with `battery_degradation = 0.2`, computed once at the start of
`calculate_autoconsumption`. -/
def adjusted_capacity {α : Type} [LinearOrderedField α]
    (storage_capacity_kwh : α) : α :=
  storage_capacity_kwh * (1 - 0.2)

/-- Model of `EnergySystemCalculator.calculate_autoconsumption`: generation and
consumption aligned positionally (the source aligns the two series by
timestamp), returning `(autokonsumed / consumption.sum(), storage_profile)`.
The `battery_cycles` argument is accepted exactly as in the source, which
never reads it. -/
def calculate_autoconsumption {α : Type} [LinearOrderedField α]
    (pv_generation consumption : List α)
    (storage_power_kw storage_capacity_kwh : α) (battery_cycles : ℕ) :
    α × List α :=
  let r := dispatch_run (adjusted_capacity storage_capacity_kwh) storage_power_kw
    (pv_generation.zip consumption) 0
  (r.2.1 / consumption.sum, r.2.2)

/-- The body of `optimize_system`'s `while True` loop, with explicit fuel:
`none` means the loop has not exited after `fuel` iterations.  The source
increments `(pv_size_kw, storage_power_kw, storage_capacity_kwh)` by
`(2, 1, 5)` whenever the achieved ratio is below `min_autoconsumption`. -/
noncomputable def optimize_go (consumption : List ℝ) (min_autoconsumption : ℝ) :
    ℕ → ℕ → ℕ → ℕ → Option (ℕ × ℕ × ℕ × ℝ × List ℝ × List ℝ)
  | 0, _, _, _ => none
  | fuel + 1, pv_size_kw, storage_power_kw, storage_capacity_kwh =>
    match simulate_pv_generation (pv_size_kw : ℝ) 1 consumption.length with
    | none => none
    | some pv_generation =>
      let r := calculate_autoconsumption pv_generation consumption
        (storage_power_kw : ℝ) (storage_capacity_kwh : ℝ) 4000
      if min_autoconsumption ≤ r.1 then
        some (pv_size_kw, storage_power_kw, storage_capacity_kwh, r.1, pv_generation, r.2)
      else
        optimize_go consumption min_autoconsumption fuel
          (pv_size_kw + 2) (storage_power_kw + 1) (storage_capacity_kwh + 5)

/-- Model of `EnergySystemCalculator.optimize_system`: the loop started from the
default candidate `(pv = 10, power = 5, capacity = 20)`. -/
noncomputable def optimize_system (consumption : List ℝ)
    (min_autoconsumption : ℝ) (fuel : ℕ) :
    Option (ℕ × ℕ × ℕ × ℝ × List ℝ × List ℝ) :=
  optimize_go consumption min_autoconsumption fuel 10 5 20

/-- Numpy's global RNG state, reduced to the data the source touches: the
seed last installed by `np.random.seed`. -/
structure NpRandomState where
  seed : ℕ
  deriving DecidableEq

/-- Version of `simulate_pv_generation` with the global RNG state made
explicit: the body calls `np.random.seed(42)` (so the outgoing state is always seed 42)
and then never draws a random number, so the returned series is the pure
`simulate_pv_generation` of the arguments, whatever state came in. -/
noncomputable def simulate_pv_generation_with_rng (st : NpRandomState)
    (pv_size_kw : ℝ) (years : ℕ) (L : ℕ) :
    Option (List ℝ) × NpRandomState :=
  let _ := st
  (simulate_pv_generation pv_size_kw years L, ⟨42⟩)

/-- Version of `calculate_autoconsumption` with the global RNG state made
explicit: the body never touches the RNG, so the state passes through
unchanged. -/
def calculate_autoconsumption_with_rng (st : NpRandomState)
    (pv_generation consumption : List ℚ)
    (storage_power_kw storage_capacity_kwh : ℚ) (battery_cycles : ℕ) :
    (ℚ × List ℚ) × NpRandomState :=
  (calculate_autoconsumption pv_generation consumption storage_power_kw
    storage_capacity_kwh battery_cycles, st)

/-! ### Structural lemmas about the tiled diurnal curve -/

theorem npTile_succ {β : Type} (xs : List β) (k : ℕ) :
    npTile xs (k + 1) = xs ++ npTile xs k := by
  simp [npTile, List.replicate_succ]

theorem npTile_length {β : Type} (xs : List β) (n : ℕ) :
    (npTile xs n).length = n * xs.length := by
  induction n with
  | zero => simp [npTile]
  | succ k ih =>
    rw [npTile_succ, List.length_append, ih, Nat.succ_mul]
    ring

theorem mem_npTile {β : Type} {xs : List β} {n : ℕ} {x : β}
    (hx : x ∈ npTile xs n) : x ∈ xs := by
  induction n with
  | zero => simp [npTile] at hx
  | succ k ih =>
    rw [npTile_succ, List.mem_append] at hx
    rcases hx with hx | hx
    · exact hx
    · exact ih hx

theorem npTile_getElem? {β : Type} (xs : List β) (n i : ℕ)
    (h : i < n * xs.length) :
    (npTile xs n)[i]? = xs[i % xs.length]? := by
  induction n generalizing i with
  | zero => simp at h
  | succ k ih =>
    rw [npTile_succ]
    rcases lt_or_le i xs.length with hi | hi
    · rw [List.getElem?_append_left hi, Nat.mod_eq_of_lt hi]
    · rw [List.getElem?_append_right hi, Nat.mod_eq_sub_mod hi]
      apply ih
      rw [Nat.succ_mul] at h
      omega

theorem npClip01_nonneg (x : ℝ) : 0 ≤ npClip01 x :=
  le_min (by norm_num) (le_max_left 0 x)

theorem seasonal_curve_length : seasonal_curve.length = 24 := by
  rw [seasonal_curve, List.length_map, List.length_range]

theorem seasonal_curve_nonneg : ∀ s ∈ seasonal_curve, 0 ≤ s := by
  intro s hs
  simp only [seasonal_curve, List.mem_map, List.mem_range] at hs
  obtain ⟨i, _, rfl⟩ := hs
  exact npClip01_nonneg _

theorem seasonal_curve_getElem? (i : ℕ) (hi : i < 24) :
    seasonal_curve[i]? = some (npClip01 (Real.sin (Real.pi * (i : ℝ) / 23))) := by
  rw [seasonal_curve, List.getElem?_map, List.getElem?_range hi, Option.map_some']

/-! ### The generation model on profile lengths divisible by 24 -/

theorem simulate_pv_generation_eq_some (pv_size_kw : ℝ) (years L : ℕ)
    (hL : 24 ∣ L) :
    simulate_pv_generation pv_size_kw years L =
      some ((npTile seasonal_curve (L / 24)).map
        (fun s => pv_size_kw * 1000 * (1 - 0.15) / 8760 * s *
          degradation_multiplier years)) := by
  have hlen : (npTile seasonal_curve (L / 24)).length = L := by
    rw [npTile_length, seasonal_curve_length, Nat.div_mul_cancel hL]
  simp [simulate_pv_generation, hlen]

theorem simulate_pv_generation_length (pv_size_kw : ℝ) (years L : ℕ)
    (gs : List ℝ) (h : simulate_pv_generation pv_size_kw years L = some gs) :
    gs.length = L := by
  unfold simulate_pv_generation at h
  by_cases hlen : (npTile seasonal_curve (L / 24)).length = L
  · rw [if_pos hlen] at h
    obtain rfl := (Option.some_injective _ h.symm)
    simpa using hlen
  · rw [if_neg hlen] at h
    cases h

/-! ### Per-step dispatch facts -/

theorem dispatch_step_level_bounds {α : Type} [LinearOrderedField α]
    (cap power level pv_gen demand : α)
    (hp : 0 ≤ power) (h0 : 0 ≤ level) (hc : level ≤ cap) :
    0 ≤ (dispatch_step cap power level pv_gen demand).1 ∧
      (dispatch_step cap power level pv_gen demand).1 ≤ cap := by
  simp only [dispatch_step, min_def, max_def]
  split_ifs <;> constructor <;> simp <;> linarith

theorem dispatch_step_direct_use_le {α : Type} [LinearOrderedField α]
    (cap power level pv_gen demand : α) :
    (dispatch_step cap power level pv_gen demand).2 ≤ demand := by
  simp only [dispatch_step, min_def, max_def]
  split_ifs <;> simp <;> linarith

theorem dispatch_step_direct_use_nonneg {α : Type} [LinearOrderedField α]
    (cap power level pv_gen demand : α)
    (hp : 0 ≤ power) (h0 : 0 ≤ level)
    (hpv : 0 ≤ pv_gen) (hd : 0 ≤ demand) :
    0 ≤ (dispatch_step cap power level pv_gen demand).2 := by
  simp only [dispatch_step, min_def, max_def]
  split_ifs <;> simp <;> linarith

theorem dispatch_step_energy {α : Type} [LinearOrderedField α]
    (cap power level pv_gen demand : α) :
    (dispatch_step cap power level pv_gen demand).2 +
      (dispatch_step cap power level pv_gen demand).1 ≤ level + pv_gen := by
  simp only [dispatch_step, min_def, max_def]
  split_ifs <;> simp <;> linarith

/-! ### Whole-run dispatch facts (induction over the time series) -/

theorem dispatch_run_level_bounds {α : Type} [LinearOrderedField α]
    (cap power : α) (pairs : List (α × α)) (level : α)
    (hp : 0 ≤ power) (h0 : 0 ≤ level) (hc : level ≤ cap) :
    (0 ≤ (dispatch_run cap power pairs level).1 ∧
      (dispatch_run cap power pairs level).1 ≤ cap) ∧
    ∀ l ∈ (dispatch_run cap power pairs level).2.2, 0 ≤ l ∧ l ≤ cap := by
  induction pairs generalizing level with
  | nil => simpa [dispatch_run] using ⟨h0, hc⟩
  | cons p rest ih =>
    obtain ⟨pv_gen, demand⟩ := p
    have hstep := dispatch_step_level_bounds cap power level pv_gen demand hp h0 hc
    have hrest := ih (dispatch_step cap power level pv_gen demand).1 hstep.1 hstep.2
    simp only [dispatch_run, List.mem_cons]
    refine ⟨hrest.1, ?_⟩
    rintro l (rfl | hl)
    · exact hstep
    · exact hrest.2 l hl

theorem dispatch_run_auto_le_sum_demand {α : Type} [LinearOrderedField α]
    (cap power : α) (pairs : List (α × α)) (level : α) :
    (dispatch_run cap power pairs level).2.1 ≤ (pairs.map Prod.snd).sum := by
  induction pairs generalizing level with
  | nil => simp [dispatch_run]
  | cons p rest ih =>
    obtain ⟨pv_gen, demand⟩ := p
    have hstep := dispatch_step_direct_use_le cap power level pv_gen demand
    have hrest := ih (dispatch_step cap power level pv_gen demand).1
    simp only [dispatch_run, List.map_cons, List.sum_cons]
    linarith

theorem dispatch_run_auto_nonneg {α : Type} [LinearOrderedField α]
    (cap power : α) (pairs : List (α × α)) (level : α)
    (hp : 0 ≤ power) (h0 : 0 ≤ level) (hc : level ≤ cap)
    (hpairs : ∀ p ∈ pairs, 0 ≤ p.1 ∧ 0 ≤ p.2) :
    0 ≤ (dispatch_run cap power pairs level).2.1 := by
  induction pairs generalizing level with
  | nil => simp [dispatch_run]
  | cons p rest ih =>
    obtain ⟨pv_gen, demand⟩ := p
    have hmem := hpairs (pv_gen, demand) (List.mem_cons_self _ _)
    have hstep := dispatch_step_direct_use_nonneg cap power level pv_gen demand
      hp h0 hmem.1 hmem.2
    have hlvl := dispatch_step_level_bounds cap power level pv_gen demand hp h0 hc
    have hrest := ih (dispatch_step cap power level pv_gen demand).1 hlvl.1 hlvl.2
      (fun q hq => hpairs q (List.mem_cons_of_mem _ hq))
    simp only [dispatch_run]
    linarith

theorem dispatch_run_energy {α : Type} [LinearOrderedField α]
    (cap power : α) (pairs : List (α × α)) (level : α) :
    (dispatch_run cap power pairs level).2.1 + (dispatch_run cap power pairs level).1 ≤
      level + (pairs.map Prod.fst).sum := by
  induction pairs generalizing level with
  | nil => simp [dispatch_run]
  | cons p rest ih =>
    obtain ⟨pv_gen, demand⟩ := p
    have hstep := dispatch_step_energy cap power level pv_gen demand
    have hrest := ih (dispatch_step cap power level pv_gen demand).1
    simp only [dispatch_run, List.map_cons, List.sum_cons]
    linarith

/-! ### The degradation multiplier -/

theorem one_sub_degradation_rate_eq :
    1 - degradation_rate = (0.85 : ℝ) ^ ((1 : ℝ) / 25) := by
  rw [degradation_rate, sub_sub_cancel]

theorem one_sub_degradation_rate_pos : 0 < 1 - degradation_rate := by
  rw [one_sub_degradation_rate_eq]
  exact Real.rpow_pos_of_pos (by norm_num) _

theorem one_sub_degradation_rate_lt_one : 1 - degradation_rate < 1 := by
  rw [one_sub_degradation_rate_eq]
  exact Real.rpow_lt_one (by norm_num) (by norm_num) (by norm_num)

theorem degradation_multiplier_nonneg (years : ℕ) :
    0 ≤ degradation_multiplier years :=
  pow_nonneg one_sub_degradation_rate_pos.le _

/-- C7: the degradation multiplier `(1 - degradation_rate) ** (years - 1)`
with `degradation_rate = 1 - 0.85 ** (1/25)` equals exactly `1` at
`years = 1`, and is strictly decreasing as `years` increases. -/
theorem C7_degradation_multiplier_one_strictAnti (y1 y2 : ℕ)
    (h1 : 1 ≤ y1) (h12 : y1 < y2) :
    degradation_multiplier 1 = 1 ∧
      degradation_multiplier y2 < degradation_multiplier y1 := by
  constructor
  · simp [degradation_multiplier]
  · unfold degradation_multiplier
    exact pow_lt_pow_right_of_lt_one₀ one_sub_degradation_rate_pos
      one_sub_degradation_rate_lt_one (by omega)

/-- Witness for C7 at `y1 = 1`, `y2 = 2`. -/
theorem C7_witness :
    degradation_multiplier 1 = 1 ∧ degradation_multiplier 2 < degradation_multiplier 1 :=
  C7_degradation_multiplier_one_strictAnti 1 2 (by norm_num) (by norm_num)

/-- C4 counterexample: on a profile of length `1` (not divisible by 24) the
generation routine does not return a series of length `1` at all — the tiled
seasonal factor is empty, so the `pd.Series(values, index)` construction
fails (modelled as `none`). -/
theorem C4_counterexample_length_one :
    ¬ ∃ gs : List ℝ, simulate_pv_generation 1 1 1 = some gs ∧
      gs.length = 1 ∧ ∀ x ∈ gs, 0 ≤ x := by
  rintro ⟨gs, hgs, -, -⟩
  have hnone : simulate_pv_generation 1 1 1 = none := rfl
  rw [hnone] at hgs
  cases hgs

/-- C4 (amended to profile lengths divisible by 24): for every
`pv_size_kw ≥ 0` and profile length `L` with `24 ∣ L`, the generation model
returns a series of exactly length `L` whose values are all `≥ 0`. -/
theorem C4_generation_length_nonneg (pv_size_kw : ℝ) (years L : ℕ)
    (hpv : 0 ≤ pv_size_kw) (hL : 24 ∣ L) :
    ∃ gs, simulate_pv_generation pv_size_kw years L = some gs ∧
      gs.length = L ∧ ∀ x ∈ gs, 0 ≤ x := by
  refine ⟨_, simulate_pv_generation_eq_some pv_size_kw years L hL, ?_, ?_⟩
  · rw [List.length_map, npTile_length, seasonal_curve_length, Nat.div_mul_cancel hL]
  · intro x hx
    simp only [List.mem_map] at hx
    obtain ⟨s, hs, rfl⟩ := hx
    have hs0 : 0 ≤ s := seasonal_curve_nonneg s (mem_npTile hs)
    have hhourly : (0 : ℝ) ≤ pv_size_kw * 1000 * (1 - 0.15) / 8760 :=
      div_nonneg (mul_nonneg (mul_nonneg hpv (by norm_num)) (by norm_num)) (by norm_num)
    exact mul_nonneg (mul_nonneg hhourly hs0) (degradation_multiplier_nonneg years)

/-- Witness for C4 at `pv_size_kw = 1`, `years = 1`, `L = 24`. -/
theorem C4_witness :
    ∃ gs, simulate_pv_generation 1 1 24 = some gs ∧
      gs.length = 24 ∧ ∀ x ∈ gs, 0 ≤ x :=
  C4_generation_length_nonneg 1 1 24 (by norm_num) (by norm_num)

/-- C5: on a profile length divisible by 24, hour `h` of the generation model
output is `pv_size_kw * 1000 * (1 - 0.15) / 8760` (flat average hourly
output) times the clipped-sine diurnal value at `h mod 24` (sin at 24 equally
spaced points from `0` to `π`, clipped into `[0,1]`, tiled across the
profile) times `(1 - degradation_rate) ^ (years - 1)`, and the output has the
profile's length. -/
theorem C5_generation_formula (pv_size_kw : ℝ) (years L h : ℕ)
    (hy : 1 ≤ years) (hL : 24 ∣ L) (hh : h < L) :
    ∃ gs, simulate_pv_generation pv_size_kw years L = some gs ∧ gs.length = L ∧
      gs[h]? = some (pv_size_kw * 1000 * (1 - 0.15) / 8760 *
        npClip01 (Real.sin (Real.pi * ((h % 24 : ℕ) : ℝ) / 23)) *
        (1 - degradation_rate) ^ (years - 1)) := by
  refine ⟨_, simulate_pv_generation_eq_some pv_size_kw years L hL, ?_, ?_⟩
  · rw [List.length_map, npTile_length, seasonal_curve_length, Nat.div_mul_cancel hL]
  · rw [List.getElem?_map]
    have htile : (npTile seasonal_curve (L / 24))[h]? =
        seasonal_curve[h % seasonal_curve.length]? := by
      apply npTile_getElem?
      rw [seasonal_curve_length, Nat.div_mul_cancel hL]
      exact hh
    rw [htile, seasonal_curve_length,
      seasonal_curve_getElem? (h % 24) (Nat.mod_lt h (by norm_num)), Option.map_some']
    rfl

/-- Witness for C5 at `pv_size_kw = 1`, `years = 1`, `L = 24`, `h = 5`. -/
theorem C5_witness :
    ∃ gs, simulate_pv_generation 1 1 24 = some gs ∧ gs.length = 24 ∧
      gs[5]? = some ((1 : ℝ) * 1000 * (1 - 0.15) / 8760 *
        npClip01 (Real.sin (Real.pi * ((5 % 24 : ℕ) : ℝ) / 23)) *
        (1 - degradation_rate) ^ (1 - 1)) :=
  C5_generation_formula 1 1 24 5 (by norm_num) (by norm_num) (by norm_num)

/-! ### Dispatch-simulator claims -/

theorem calculate_autoconsumption_ratio_le_one {α : Type} [LinearOrderedField α]
    (pv_generation consumption : List α)
    (storage_power_kw storage_capacity_kwh : α) (bc : ℕ)
    (hlen : consumption.length ≤ pv_generation.length)
    (hsum : 0 < consumption.sum) :
    (calculate_autoconsumption pv_generation consumption storage_power_kw
      storage_capacity_kwh bc).1 ≤ 1 := by
  have hle := dispatch_run_auto_le_sum_demand (adjusted_capacity storage_capacity_kwh)
    storage_power_kw (pv_generation.zip consumption) 0
  rw [List.map_snd_zip _ _ hlen] at hle
  simp only [calculate_autoconsumption]
  exact (div_le_one hsum).mpr hle

/-- C2: on equal-length non-negative series with non-negative power and
capacity, every recorded storage level lies in `[0, adjusted_capacity]`, the
per-step `direct_use` never exceeds the hour's demand, and (when total
consumption is positive) the returned autoconsumption ratio lies in
`[0, 1]`. -/
theorem C2_dispatch_invariants (pv_generation consumption : List ℚ)
    (storage_power_kw storage_capacity_kwh : ℚ) (battery_cycles : ℕ)
    (hlen : pv_generation.length = consumption.length)
    (hg : ∀ x ∈ pv_generation, 0 ≤ x) (hc : ∀ x ∈ consumption, 0 ≤ x)
    (hp : 0 ≤ storage_power_kw) (hcap : 0 ≤ storage_capacity_kwh) :
    (∀ l ∈ (calculate_autoconsumption pv_generation consumption storage_power_kw
        storage_capacity_kwh battery_cycles).2,
      0 ≤ l ∧ l ≤ adjusted_capacity storage_capacity_kwh) ∧
    (∀ level pv_gen demand : ℚ,
      (dispatch_step (adjusted_capacity storage_capacity_kwh) storage_power_kw
        level pv_gen demand).2 ≤ demand) ∧
    (0 < consumption.sum →
      0 ≤ (calculate_autoconsumption pv_generation consumption storage_power_kw
        storage_capacity_kwh battery_cycles).1 ∧
      (calculate_autoconsumption pv_generation consumption storage_power_kw
        storage_capacity_kwh battery_cycles).1 ≤ 1) := by
  have hac : 0 ≤ adjusted_capacity storage_capacity_kwh :=
    mul_nonneg hcap (by norm_num)
  have hpairs : ∀ p ∈ pv_generation.zip consumption, 0 ≤ p.1 ∧ 0 ≤ p.2 := by
    rintro ⟨a, b⟩ hab
    have hmem := List.of_mem_zip hab
    exact ⟨hg a hmem.1, hc b hmem.2⟩
  refine ⟨?_, ?_, ?_⟩
  · intro l hl
    exact (dispatch_run_level_bounds (adjusted_capacity storage_capacity_kwh)
      storage_power_kw (pv_generation.zip consumption) 0 hp le_rfl hac).2 l hl
  · intro level pv_gen demand
    exact dispatch_step_direct_use_le _ _ _ _ _
  · intro hsum
    constructor
    · have h0 := dispatch_run_auto_nonneg (adjusted_capacity storage_capacity_kwh)
        storage_power_kw (pv_generation.zip consumption) 0 hp le_rfl hac hpairs
      simp only [calculate_autoconsumption]
      exact div_nonneg h0 hsum.le
    · exact calculate_autoconsumption_ratio_le_one _ _ _ _ _ hlen.ge hsum

/-- Witness for C2 at `pv_generation = [1, 2]`, `consumption = [1, 1]`,
`storage_power_kw = 1`, `storage_capacity_kwh = 10`. -/
theorem C2_witness :
    (∀ l ∈ (calculate_autoconsumption (α := ℚ) [1, 2] [1, 1] 1 10 4000).2,
      0 ≤ l ∧ l ≤ adjusted_capacity 10) ∧
    (∀ level pv_gen demand : ℚ,
      (dispatch_step (adjusted_capacity (10 : ℚ)) 1 level pv_gen demand).2 ≤ demand) ∧
    (0 < ([1, 1] : List ℚ).sum →
      0 ≤ (calculate_autoconsumption (α := ℚ) [1, 2] [1, 1] 1 10 4000).1 ∧
      (calculate_autoconsumption (α := ℚ) [1, 2] [1, 1] 1 10 4000).1 ≤ 1) :=
  C2_dispatch_invariants [1, 2] [1, 1] 1 10 4000 (by norm_num)
    (by norm_num) (by norm_num) (by norm_num) (by norm_num)

/-- C3 (failing behaviour of the code): with all-zero consumption the
dispatch simulator performs no ZeroConsumption check — it reaches the final
division `autokonsumed / consumption.sum()` with a zero divisor (NaN in the
floating-point source; the field convention `x / 0 = 0` here) and returns an
ordinary result pair, indistinguishable from a successful zero ratio. -/
theorem C3_zero_consumption_not_rejected :
    ([0, 0] : List ℚ).sum = 0 ∧
    calculate_autoconsumption (α := ℚ) [1, 1] [0, 0] 1 1 4000 = (0, [4 / 5, 4 / 5]) := by
  constructor
  · norm_num
  · norm_num [calculate_autoconsumption, dispatch_run, dispatch_step, adjusted_capacity]

/-- C6 (failing behaviour of the code): no `InvalidParameter` validation
exists.  With `pv_size_kw = -1` the generation model happily returns a
series, and with negative `storage_power_kw` and `storage_capacity_kwh` the
dispatch simulator returns a result (even driving the storage level to `1`
from an empty battery, because `min` with a negative power bound produces a
negative discharge). -/
theorem C6_no_input_validation :
    (simulate_pv_generation (-1) 1 24).isSome = true ∧
    calculate_autoconsumption (α := ℚ) [1] [1] (-1) (-1) 4000 = (0, [1]) := by
  constructor
  · rfl
  · norm_num [calculate_autoconsumption, dispatch_run, dispatch_step, adjusted_capacity]

/-- C9: `battery_cycles` has no effect on the dispatch simulator's output,
and the capacity bound used is `storage_capacity_kwh * (1 - 0.2)`, fixed
once for the whole run. -/
theorem C9_battery_cycles_has_no_effect (pv_generation consumption : List ℚ)
    (storage_power_kw storage_capacity_kwh : ℚ) (bc1 bc2 : ℕ) :
    calculate_autoconsumption pv_generation consumption storage_power_kw
        storage_capacity_kwh bc1 =
      calculate_autoconsumption pv_generation consumption storage_power_kw
        storage_capacity_kwh bc2 ∧
    adjusted_capacity storage_capacity_kwh = storage_capacity_kwh * (1 - 0.2) :=
  ⟨rfl, rfl⟩

/-- C10: after any number `n` of steps of the dispatch fold, the accumulated
`autokonsumed` plus the current storage level is at most the generation seen
so far; in particular total autoconsumed energy never exceeds total
generation. -/
theorem C10_energy_conservation (pv_generation consumption : List ℚ)
    (storage_power_kw storage_capacity_kwh : ℚ)
    (hlen : pv_generation.length = consumption.length)
    (hg : ∀ x ∈ pv_generation, 0 ≤ x) (hc : ∀ x ∈ consumption, 0 ≤ x)
    (hp : 0 ≤ storage_power_kw) (hcap : 0 ≤ storage_capacity_kwh) :
    (∀ n : ℕ,
      (dispatch_run (adjusted_capacity storage_capacity_kwh) storage_power_kw
          ((pv_generation.zip consumption).take n) 0).2.1 +
        (dispatch_run (adjusted_capacity storage_capacity_kwh) storage_power_kw
          ((pv_generation.zip consumption).take n) 0).1 ≤
      (((pv_generation.zip consumption).take n).map Prod.fst).sum) ∧
    (dispatch_run (adjusted_capacity storage_capacity_kwh) storage_power_kw
        (pv_generation.zip consumption) 0).2.1 ≤ pv_generation.sum := by
  have hac : 0 ≤ adjusted_capacity storage_capacity_kwh :=
    mul_nonneg hcap (by norm_num)
  constructor
  · intro n
    have hen := dispatch_run_energy (adjusted_capacity storage_capacity_kwh)
      storage_power_kw ((pv_generation.zip consumption).take n) 0
    linarith
  · have hlvl := (dispatch_run_level_bounds (adjusted_capacity storage_capacity_kwh)
      storage_power_kw (pv_generation.zip consumption) 0 hp le_rfl hac).1.1
    have hen := dispatch_run_energy (adjusted_capacity storage_capacity_kwh)
      storage_power_kw (pv_generation.zip consumption) 0
    rw [List.map_fst_zip _ _ hlen.le] at hen
    linarith

/-- Witness for C10 at `pv_generation = [1, 2]`, `consumption = [1, 1]`,
`storage_power_kw = 1`, `storage_capacity_kwh = 10`. -/
theorem C10_witness :
    (∀ n : ℕ,
      (dispatch_run (adjusted_capacity (10 : ℚ)) 1
          ((([1, 2] : List ℚ).zip ([1, 1] : List ℚ)).take n) 0).2.1 +
        (dispatch_run (adjusted_capacity (10 : ℚ)) 1
          ((([1, 2] : List ℚ).zip ([1, 1] : List ℚ)).take n) 0).1 ≤
      (((([1, 2] : List ℚ).zip ([1, 1] : List ℚ)).take n).map Prod.fst).sum) ∧
    (dispatch_run (adjusted_capacity (10 : ℚ)) 1
        (([1, 2] : List ℚ).zip ([1, 1] : List ℚ)) 0).2.1 ≤ ([1, 2] : List ℚ).sum :=
  C10_energy_conservation [1, 2] [1, 1] 1 10 (by norm_num)
    (by norm_num) (by norm_num) (by norm_num) (by norm_num)

/-! ### The sizing loop -/

theorem optimize_go_succ_some (cons : List ℝ) (t : ℝ) (k pv pw cap : ℕ)
    (gen : List ℝ)
    (hsim : simulate_pv_generation (pv : ℝ) 1 cons.length = some gen) :
    optimize_go cons t (k + 1) pv pw cap =
      (if t ≤ (calculate_autoconsumption gen cons (pw : ℝ) (cap : ℝ) 4000).1 then
        some (pv, pw, cap,
          (calculate_autoconsumption gen cons (pw : ℝ) (cap : ℝ) 4000).1,
          gen, (calculate_autoconsumption gen cons (pw : ℝ) (cap : ℝ) 4000).2)
      else optimize_go cons t k (pv + 2) (pw + 1) (cap + 5)) := by
  rw [optimize_go, hsim]

/-- On the flat 24-hour profile of 1 kWh per hour, with an unreachable
target ratio of `3/2`, no amount of fuel makes the loop body exit: each
candidate's achieved ratio is at most `1 < 3/2`, so the `while True` loop
never takes its `break`. -/
theorem optimize_go_flat_profile_none :
    ∀ fuel pv_size_kw storage_power_kw storage_capacity_kwh : ℕ,
      optimize_go (List.replicate 24 (1 : ℝ)) (3 / 2) fuel
        pv_size_kw storage_power_kw storage_capacity_kwh = none := by
  intro fuel
  induction fuel with
  | zero => intro _ _ _; rfl
  | succ k ih =>
    intro pv pw cap
    have hlen : (List.replicate 24 (1 : ℝ)).length = 24 := by
      rw [List.length_replicate]
    have hsim : simulate_pv_generation (pv : ℝ) 1
        (List.replicate 24 (1 : ℝ)).length =
        some ((npTile seasonal_curve (24 / 24)).map
          (fun s => (pv : ℝ) * 1000 * (1 - 0.15) / 8760 * s *
            degradation_multiplier 1)) := by
      rw [hlen]
      exact simulate_pv_generation_eq_some (pv : ℝ) 1 24 ⟨1, rfl⟩
    rw [optimize_go_succ_some _ _ _ _ _ _ _ hsim]
    have hsum : 0 < (List.replicate 24 (1 : ℝ)).sum := by
      rw [List.sum_replicate, nsmul_eq_mul]
      norm_num
    have hglen : (List.replicate 24 (1 : ℝ)).length ≤
        ((npTile seasonal_curve (24 / 24)).map
          (fun s => (pv : ℝ) * 1000 * (1 - 0.15) / 8760 * s *
            degradation_multiplier 1)).length := by
      rw [hlen, List.length_map, npTile_length, seasonal_curve_length]
    have hr := calculate_autoconsumption_ratio_le_one
      ((npTile seasonal_curve (24 / 24)).map
        (fun s => (pv : ℝ) * 1000 * (1 - 0.15) / 8760 * s *
          degradation_multiplier 1))
      (List.replicate 24 (1 : ℝ)) (pw : ℝ) (cap : ℝ) 4000 hglen hsum
    rw [if_neg (by linarith)]
    exact ih (pv + 2) (pw + 1) (cap + 5)

/-- C1 (failing behaviour of the code): `optimize_system` has no iteration
cap and no `UnreachableTarget` path.  On the flat 24-hour profile with
target ratio `3/2` the loop body never exits, whatever iteration budget it
is given — the source's `while True` runs forever instead of returning the
best candidate with an `UnreachableTarget` status. -/
theorem C1_optimizer_never_exits (fuel : ℕ) :
    optimize_system (List.replicate 24 (1 : ℝ)) (3 / 2) fuel = none :=
  optimize_go_flat_profile_none fuel 10 5 20

/-! ### Purity of the two simulation routines -/

/-- C8: the generation routine's result is independent of the incoming
global RNG state (the `np.random.seed(42)` call installs a fixed seed and no
randomness is ever drawn), repeated invocation through the threaded state
returns the identical series, and the dispatch simulator neither reads nor
writes that state. -/
theorem C8_deterministic_pure (st1 st2 : NpRandomState) (pv_size_kw : ℝ)
    (years L : ℕ) (pv_generation consumption : List ℚ)
    (storage_power_kw storage_capacity_kwh : ℚ) (battery_cycles : ℕ) :
    (simulate_pv_generation_with_rng st1 pv_size_kw years L).1 =
      (simulate_pv_generation_with_rng st2 pv_size_kw years L).1 ∧
    (simulate_pv_generation_with_rng st1 pv_size_kw years L).2 = ⟨42⟩ ∧
    (simulate_pv_generation_with_rng
        (simulate_pv_generation_with_rng st1 pv_size_kw years L).2
        pv_size_kw years L).1 =
      (simulate_pv_generation_with_rng st1 pv_size_kw years L).1 ∧
    (calculate_autoconsumption_with_rng st1 pv_generation consumption
        storage_power_kw storage_capacity_kwh battery_cycles).1 =
      (calculate_autoconsumption_with_rng st2 pv_generation consumption
        storage_power_kw storage_capacity_kwh battery_cycles).1 ∧
    (calculate_autoconsumption_with_rng st1 pv_generation consumption
        storage_power_kw storage_capacity_kwh battery_cycles).2 = st1 :=
  ⟨rfl, rfl, rfl, rfl, rfl⟩
